import Mathlib

/-!
Shallow embedding of the TBD per-tenant database-SaaS backend.

The repository provisions a MySQL or PostgreSQL workload plus a web admin
console (phpMyAdmin or pgAdmin) into a per-tenant Kubernetes namespace and
wires Traefik path-prefix routing to the console.  The embedding below
translates the relevant Go functions:

* `TBDback/deployer.go`: `GetUserNamespace`, `ensureNamespaceExists`;
* `TBDback/newhandler.go` (first, current revision of the file):
  the resource spec builders (`createMySQLDeployment`,
  `createPostgreSQLDeployment`, `createPgAdminDeployment`,
  `createPhpMyAdminDeployment` and the service builders), the routing
  builders (`createPgAdminMiddleware`, `createPgAdminIngressRoute`,
  `createTraefikMiddleware`, `createTraefikIngressRoute`), the deploy
  flows (`deployPostgreSQL`, `deployMySQL`), the decommission flows
  (`deleteMySQLResources`, `deletePostgreSQLResources`) and the lister
  (`listDatabasesInNamespace`);
* the HTTP entry point (`main` / `deployDatabaseToUserNamespace`) of the
  backend server, and `ensureNamespace`;
* the gRPC admin service (`internal/k8s`): `K8sService.GetUserNamespace`,
  `CreateDatabase`, `deployPostgreSQL`, `deployMySQL`,
  `createTraefikResources` and its spec builders.

Kubernetes itself is modelled by an explicit cluster state whose create
calls follow create-or-conflict semantics, and by outcome oracles where a
claim quantifies over arbitrary API failures.  Go strings are modelled as
Lean strings; Go's byte-level slicing `s[:63]` is modelled at character
granularity (the two agree on ASCII data, which is all the system's name
material).
-/

/-- A database provisioning request, `DatabaseRequest` in
`TBDback/deployer.go` (JSON body of `POST /api/databases`). The Go field
`Type` is rendered `dbType` because `Type` is reserved in Lean. -/
structure DatabaseRequest where
  name : String
  username : String
  password : String
  dbType : String
  userID : Int
  userName : String
deriving DecidableEq, Repr

/-- `GetUserNamespace` (`TBDback/deployer.go` and `internal/k8s/service.go`,
both bodies are identical): concatenate the decimal user id and the user
name; truncate to the first 63 characters when longer. -/
def GetUserNamespace (userID : Int) (username : String) : String :=
  let namespaceName := toString userID ++ username
  if namespaceName.length > 63 then String.mk (namespaceName.data.take 63)
  else namespaceName

/-- Spec formula of section 4.1: `derivePathPrefix(namespace, databaseName,
adminSuffix) = "/namespace/databaseName-adminSuffix"`.  Written from the
spec's words, to be compared with the strings the source computes at each
use site. -/
def derivePathPrefix (ns dbName adminSuffix : String) : String :=
  "/" ++ ns ++ "/" ++ dbName ++ "-" ++ adminSuffix

/-- A Traefik middleware spec: the three variants the source ever builds
(`headers.customRequestHeaders`, `stripPrefix.prefixes`,
`replacePathRegex`). -/
inductive MiddlewareSpec where
  | headers (customRequestHeaders : List (String × String))
  | stripPrefixMW (prefixList : List String)
  | replacePathRegex (regex : String) (replacement : String)
deriving DecidableEq, Repr

/-- True exactly on the header-injection variant. -/
def MiddlewareSpec.isHeaders : MiddlewareSpec → Bool
  | .headers _ => true
  | _ => false

/-- True exactly on the prefix-strip variant. -/
def MiddlewareSpec.isStripMW : MiddlewareSpec → Bool
  | .stripPrefixMW _ => true
  | _ => false

/-- True exactly on the regex-rewrite variant. -/
def MiddlewareSpec.isReplacePathRegex : MiddlewareSpec → Bool
  | .replacePathRegex _ _ => true
  | _ => false

/-- A named middleware object as created through the dynamic client. -/
structure MiddlewareObj where
  name : String
  spec : MiddlewareSpec
deriving DecidableEq, Repr

/-- A Traefik IngressRoute: its single route's match string, ordered
middleware references, and target service. -/
structure IngressRouteSpec where
  name : String
  matchRule : String
  middlewareRefs : List String
  serviceName : String
  servicePort : Nat
deriving DecidableEq, Repr

/-- A Deployment spec, reduced to the fields the claims are about:
metadata name/namespace/labels and the single container's image, port and
environment. -/
structure DeploymentSpec where
  name : String
  nsName : String
  labels : List (String × String)
  image : String
  containerPort : Nat
  env : List (String × String)
deriving DecidableEq, Repr

/-- A Service spec reduced to name and ports (all services in the source
are ClusterIP with port = targetPort). -/
structure ServiceSpec where
  name : String
  port : Nat
  targetPort : Nat
deriving DecidableEq, Repr

/-- Look up an environment variable in a container env list. -/
def envLookup (env : List (String × String)) (key : String) : Option String :=
  (env.find? (fun p => p.1 == key)).map (fun p => p.2)

/-- The cluster, as far as the backend touches it: existing namespaces and
the namespace-scoped objects of the tenant namespace under operation. -/
structure ClusterState where
  namespaces : List String
  deployments : List DeploymentSpec
  services : List ServiceSpec
  middlewares : List MiddlewareObj
  ingressRoutes : List IngressRouteSpec
deriving DecidableEq, Repr

/-- The empty cluster. -/
def emptyCluster : ClusterState :=
  { namespaces := [], deployments := [], services := [], middlewares := [],
    ingressRoutes := [] }

/-- Errors a deploy flow returns: a create-conflict (Kubernetes
AlreadyExists, wrapped by the named step) or the `dynamic client not
available` guard of the routing helpers. -/
inductive DeployErr where
  | conflict (step : String)
  | dynUnavailable (step : String)
deriving DecidableEq, Repr

/-- Create-or-conflict for Deployments: the API refuses a second object of
the same name. -/
def createDeployment (step : String) (s : ClusterState) (d : DeploymentSpec) :
    Except DeployErr ClusterState :=
  if s.deployments.any (fun x => x.name == d.name) then .error (.conflict step)
  else .ok { s with deployments := s.deployments ++ [d] }

/-- Create-or-conflict for Services. -/
def createService (step : String) (s : ClusterState) (v : ServiceSpec) :
    Except DeployErr ClusterState :=
  if s.services.any (fun x => x.name == v.name) then .error (.conflict step)
  else .ok { s with services := s.services ++ [v] }

/-- Create-or-conflict for Middlewares (through the dynamic client). -/
def createMiddleware (step : String) (s : ClusterState) (m : MiddlewareObj) :
    Except DeployErr ClusterState :=
  if s.middlewares.any (fun x => x.name == m.name) then .error (.conflict step)
  else .ok { s with middlewares := s.middlewares ++ [m] }

/-- Create-or-conflict for IngressRoutes (through the dynamic client). -/
def createIngressRoute (step : String) (s : ClusterState) (r : IngressRouteSpec) :
    Except DeployErr ClusterState :=
  if s.ingressRoutes.any (fun x => x.name == r.name) then .error (.conflict step)
  else .ok { s with ingressRoutes := s.ingressRoutes ++ [r] }

namespace TBDback

/-- `createMySQLDeployment` of `TBDback/newhandler.go` (current revision):
image `mysql:latest`, container port 3306. -/
def createMySQLDeployment (req : DatabaseRequest) (ns : String) : DeploymentSpec :=
  { name := req.name
    nsName := ns
    labels := [("app", req.name),
               ("app.kubernetes.io/component", "database"),
               ("app.kubernetes.io/managed-by", "db-saas"),
               ("db-saas/type", "mysql"),
               ("db-saas/user-id", toString req.userID)]
    image := "mysql:latest"
    containerPort := 3306
    env := [("MYSQL_ROOT_PASSWORD", req.password),
            ("MYSQL_DATABASE", req.name),
            ("MYSQL_USER", req.username),
            ("MYSQL_PASSWORD", req.password)] }

/-- `createMySQLService` of `TBDback/newhandler.go`. -/
def createMySQLService (req : DatabaseRequest) : ServiceSpec :=
  { name := req.name, port := 3306, targetPort := 3306 }

/-- `createPostgreSQLDeployment` of `TBDback/newhandler.go` (current
revision): image `postgres:latest`, container port 5432. -/
def createPostgreSQLDeployment (req : DatabaseRequest) (ns : String) : DeploymentSpec :=
  { name := req.name
    nsName := ns
    labels := [("app", req.name),
               ("app.kubernetes.io/component", "database"),
               ("app.kubernetes.io/managed-by", "db-saas"),
               ("db-saas/type", "postgresql"),
               ("db-saas/user-id", toString req.userID)]
    image := "postgres:latest"
    containerPort := 5432
    env := [("POSTGRES_DB", req.name),
            ("POSTGRES_USER", req.username),
            ("POSTGRES_PASSWORD", req.password)] }

/-- `createPostgreSQLService` of `TBDback/newhandler.go`. -/
def createPostgreSQLService (req : DatabaseRequest) : ServiceSpec :=
  { name := req.name, port := 5432, targetPort := 5432 }

/-- `createPgAdminDeployment` of `TBDback/newhandler.go` (current
revision): the pgAdmin console is told its mount path via the
`SCRIPT_NAME` environment variable, computed as
`fmt.Sprintf("/%s/%s-pgadmin", namespace, dbRequest.Name)`. -/
def createPgAdminDeployment (req : DatabaseRequest) (ns : String) : DeploymentSpec :=
  { name := req.name ++ "-pgadmin"
    nsName := ns
    labels := [("app", req.name ++ "-pgadmin"),
               ("app.kubernetes.io/managed-by", "db-saas")]
    image := "dpage/pgadmin4:latest"
    containerPort := 80
    env := [("PGADMIN_DEFAULT_EMAIL", req.username ++ "@gmail.com"),
            ("PGADMIN_DEFAULT_PASSWORD", req.password),
            ("SCRIPT_NAME", "/" ++ ns ++ "/" ++ req.name ++ "-pgadmin"),
            ("PGADMIN_CONFIG_WTF_CSRF_ENABLED", "False"),
            ("PGADMIN_CONFIG_SESSION_COOKIE_SECURE", "False"),
            ("PGADMIN_LISTEN_ADDRESS", "0.0.0.0"),
            ("PGADMIN_LISTEN_PORT", "80")] }

/-- `createPgAdminService` of `TBDback/newhandler.go`. -/
def createPgAdminService (req : DatabaseRequest) : ServiceSpec :=
  { name := req.name ++ "-pgadmin", port := 80, targetPort := 80 }

/-- `createPhpMyAdminDeployment` of `TBDback/newhandler.go` (current
revision): phpMyAdmin is mount-path agnostic, no absolute-URI variable. -/
def createPhpMyAdminDeployment (req : DatabaseRequest) (ns : String) : DeploymentSpec :=
  { name := req.name ++ "-phpmyadmin"
    nsName := ns
    labels := [("app", req.name ++ "-phpmyadmin"),
               ("app.kubernetes.io/component", "admin-dashboard"),
               ("app.kubernetes.io/managed-by", "db-saas"),
               ("db-saas/type", "phpmyadmin"),
               ("db-saas/user-id", toString req.userID)]
    image := "phpmyadmin:5.2"
    containerPort := 80
    env := [("PMA_HOST", req.name),
            ("PMA_PORT", "3306"),
            ("PMA_USER", req.username),
            ("PMA_PASSWORD", req.password),
            ("MYSQL_ROOT_PASSWORD", req.password)] }

/-- `createPhpMyAdminService` of `TBDback/newhandler.go`. -/
def createPhpMyAdminService (req : DatabaseRequest) : ServiceSpec :=
  { name := req.name ++ "-phpmyadmin", port := 80, targetPort := 80 }

/-- The headers middleware object of `createPgAdminMiddleware`
(`TBDback/newhandler.go`): name `name-pgadmin-headers`, customRequestHeaders
X-User-ID / X-Username / X-Namespace, and nothing else. -/
def pgAdminHeadersMiddleware (req : DatabaseRequest) (ns : String) : MiddlewareObj :=
  { name := req.name ++ "-pgadmin-headers"
    spec := .headers [("X-User-ID", toString req.userID),
                      ("X-Username", req.username),
                      ("X-Namespace", ns)] }

/-- `createPgAdminMiddleware` (`TBDback/newhandler.go`): fails when the
dynamic client is not initialized, otherwise creates only the headers
middleware (no stripPrefix). -/
def createPgAdminMiddleware (dyn : Bool) (req : DatabaseRequest) (ns : String)
    (s : ClusterState) : Except DeployErr ClusterState :=
  if !dyn then .error (.dynUnavailable "pgAdmin middleware")
  else createMiddleware "headers middleware" s (pgAdminHeadersMiddleware req ns)

/-- The IngressRoute object of `createPgAdminIngressRoute`
(`TBDback/newhandler.go`): match on host 10.9.21.201 and the path prefix
`fmt.Sprintf("/%s/%s-pgadmin", namespace, dbRequest.Name)`, with the
headers middleware as the only middleware reference. -/
def pgAdminIngressRouteSpec (req : DatabaseRequest) (ns : String) (port : Nat) :
    IngressRouteSpec :=
  { name := req.name ++ "-pgadmin-ingress"
    matchRule := "Host(\"10.9.21.201\") && PathPrefix(\""
                   ++ ("/" ++ ns ++ "/" ++ req.name ++ "-pgadmin") ++ "\")"
    middlewareRefs := [req.name ++ "-pgadmin-headers"]
    serviceName := req.name ++ "-pgadmin"
    servicePort := port }

/-- `createPgAdminIngressRoute` (`TBDback/newhandler.go`): dynamic-client
guard, then create-or-conflict of the route above. -/
def createPgAdminIngressRoute (dyn : Bool) (req : DatabaseRequest) (ns : String)
    (port : Nat) (s : ClusterState) : Except DeployErr ClusterState :=
  if !dyn then .error (.dynUnavailable "pgAdmin IngressRoute")
  else createIngressRoute "IngressRoute" s (pgAdminIngressRouteSpec req ns port)

/-- The middleware objects `createTraefikMiddleware`
(`TBDback/newhandler.go`, current revision) creates: always the headers
middleware, plus — only for `phpmyadmin` — a replacePathRegex middleware
whose regex is built from `fmt.Sprintf("/%s/%s-%s", ...)`. -/
def traefikMiddlewareObjs (req : DatabaseRequest) (ns adminType : String) :
    List MiddlewareObj :=
  [{ name := req.name ++ "-" ++ adminType ++ "-headers"
     spec := .headers [("X-User-ID", toString req.userID),
                       ("X-Username", req.username),
                       ("X-Namespace", ns)] }]
  ++ (if adminType == "phpmyadmin" then
        [{ name := req.name ++ "-" ++ adminType ++ "-replacepath"
           spec := .replacePathRegex
             ("^" ++ ("/" ++ ns ++ "/" ++ req.name ++ "-" ++ adminType) ++ "/(.*)")
             "/$1" }]
      else [])

/-- `createTraefikMiddleware` (`TBDback/newhandler.go`, current revision):
dynamic-client guard, headers middleware, then — for phpMyAdmin only — the
replacePathRegex middleware. -/
def createTraefikMiddleware (dyn : Bool) (req : DatabaseRequest)
    (ns adminType : String) (s : ClusterState) : Except DeployErr ClusterState :=
  if !dyn then .error (.dynUnavailable "middleware")
  else do
    let s ← createMiddleware "headers middleware" s
      { name := req.name ++ "-" ++ adminType ++ "-headers"
        spec := .headers [("X-User-ID", toString req.userID),
                          ("X-Username", req.username),
                          ("X-Namespace", ns)] }
    if adminType == "phpmyadmin" then
      createMiddleware "replacePathRegex middleware" s
        { name := req.name ++ "-" ++ adminType ++ "-replacepath"
          spec := .replacePathRegex
            ("^" ++ ("/" ++ ns ++ "/" ++ req.name ++ "-" ++ adminType) ++ "/(.*)")
            "/$1" }
    else .ok s

/-- The IngressRoute object of `createTraefikIngressRoute`
(`TBDback/newhandler.go`, current revision): headers middleware reference
first, then — for phpMyAdmin only — the replacePathRegex reference. -/
def traefikIngressRouteSpec (req : DatabaseRequest) (ns adminType : String)
    (port : Nat) : IngressRouteSpec :=
  { name := req.name ++ "-" ++ adminType ++ "-ingress"
    matchRule := "Host(\"10.9.21.201\") && PathPrefix(\""
                   ++ ("/" ++ ns ++ "/" ++ req.name ++ "-" ++ adminType) ++ "\")"
    middlewareRefs :=
      [req.name ++ "-" ++ adminType ++ "-headers"]
      ++ (if adminType == "phpmyadmin" then
            [req.name ++ "-" ++ adminType ++ "-replacepath"]
          else [])
    serviceName := req.name ++ "-" ++ adminType
    servicePort := port }

/-- `createTraefikIngressRoute` (`TBDback/newhandler.go`, current
revision). -/
def createTraefikIngressRoute (dyn : Bool) (req : DatabaseRequest)
    (ns adminType : String) (port : Nat) (s : ClusterState) :
    Except DeployErr ClusterState :=
  if !dyn then .error (.dynUnavailable "IngressRoute")
  else createIngressRoute "IngressRoute" s (traefikIngressRouteSpec req ns adminType port)

/-- `deployPostgreSQL` (`TBDback/newhandler.go`, current revision): strictly
sequential creates, every error — conflicts included — propagated. -/
def deployPostgreSQL (dyn : Bool) (req : DatabaseRequest) (ns : String)
    (s : ClusterState) : Except DeployErr ClusterState := do
  let s ← createDeployment "PostgreSQL deployment" s (createPostgreSQLDeployment req ns)
  let s ← createService "PostgreSQL service" s (createPostgreSQLService req)
  let s ← createDeployment "pgAdmin deployment" s (createPgAdminDeployment req ns)
  let s ← createService "pgAdmin service" s (createPgAdminService req)
  let s ← createPgAdminMiddleware dyn req ns s
  createPgAdminIngressRoute dyn req ns 80 s

/-- `deployMySQL` (`TBDback/newhandler.go`, current revision): strictly
sequential creates, every error propagated; routing through
`createTraefikMiddleware`/`createTraefikIngressRoute` with admin type
`phpmyadmin`. -/
def deployMySQL (dyn : Bool) (req : DatabaseRequest) (ns : String)
    (s : ClusterState) : Except DeployErr ClusterState := do
  let s ← createDeployment "MySQL deployment" s (createMySQLDeployment req ns)
  let s ← createService "MySQL service" s (createMySQLService req)
  let s ← createDeployment "phpMyAdmin deployment" s (createPhpMyAdminDeployment req ns)
  let s ← createService "phpMyAdmin service" s (createPhpMyAdminService req)
  let s ← createTraefikMiddleware dyn req ns "phpmyadmin" s
  createTraefikIngressRoute dyn req ns "phpmyadmin" 80 s

end TBDback

/-- The admin URL the provisioning endpoint returns (`main` of the backend
server, `POST /api/databases`): `/namespace/dbname-phpmyadmin` for mysql,
`/namespace/dbname-pgadmin/login?next=` for every other type. -/
def provisionAdminURL (dbType ns dbName : String) : String :=
  if dbType == "mysql" then
    "http://10.9.21.201/" ++ ns ++ "/" ++ dbName ++ "-phpmyadmin"
  else
    "http://10.9.21.201/" ++ ns ++ "/" ++ dbName ++ "-pgadmin/login?next="

/-- The admin type string the provisioning endpoint returns. -/
def provisionAdminType (dbType : String) : String :=
  if dbType == "mysql" then "phpMyAdmin" else "pgAdmin"

/-- The admin URL `listDatabasesInNamespace` (`TBDback/newhandler.go`,
current revision) reconstructs from the deployment's `db-saas/type` label:
the `/namespace/admin/adminType/dbname` pattern, empty for unknown types. -/
def listerAdminURL (dbType ns dbName : String) : String :=
  if dbType == "mysql" then
    "http://10.9.21.201/" ++ ns ++ "/admin/phpmyadmin/" ++ dbName
  else if dbType == "postgresql" then
    "http://10.9.21.201/" ++ ns ++ "/admin/pgadmin/" ++ dbName
  else ""

/-- The admin type string the lister reports. -/
def listerAdminType (dbType : String) : String :=
  if dbType == "mysql" then "phpMyAdmin"
  else if dbType == "postgresql" then "pgAdmin"
  else ""

/-- `ensureNamespace` of `TBDback/newhandler.go` run against a healthy
API, as the deploy flow does: the get succeeds exactly when the namespace
exists; a failed get is followed by a create, which — sequentially, against
a healthy API — succeeds. -/
def ensureNamespaceStep (s : ClusterState) (ns : String) : ClusterState :=
  if s.namespaces.contains ns then s
  else { s with namespaces := s.namespaces ++ [ns] }

/-- `deployDatabaseToUserNamespace` of the backend server: derive the user
namespace, ensure it, then dispatch — `mysql` to the MySQL flow and every
other type string to the PostgreSQL flow. -/
def deployDatabaseToUserNamespace (dyn : Bool) (req : DatabaseRequest)
    (s : ClusterState) : Except DeployErr ClusterState :=
  let userNamespace := GetUserNamespace req.userID req.userName
  let s := ensureNamespaceStep s userNamespace
  if req.dbType == "mysql" then TBDback.deployMySQL dyn req userNamespace s
  else TBDback.deployPostgreSQL dyn req userNamespace s

/-- An error of the orchestration API as the ensurer code distinguishes
them: not-found, already-exists, or anything else. -/
inductive ApiErr where
  | notFound
  | alreadyExists
  | other (msg : String)
deriving DecidableEq, Repr

/-- Observable outcome of one namespace-ensure call: the error it returns
(none on success), whether it issued a create, and the labels of the
namespace object it created, if any. -/
structure EnsureResult where
  err : Option ApiErr
  createAttempted : Bool
  createdLabels : Option (List (String × String))
deriving DecidableEq, Repr

/-- Labels `createUserNamespace` (`TBDback/deployer.go`) puts on a created
namespace. -/
def deployerNsLabels (userID : Int) (username : String) : List (String × String) :=
  [("app.kubernetes.io/managed-by", "db-saas"),
   ("db-saas/user-id", toString userID),
   ("db-saas/username", username),
   ("db-saas/type", "user-namespace")]

/-- `ensureNamespaceExists` (`TBDback/deployer.go`), over the outcomes of
the get and create calls: a successful get returns at once; a get error
that is not not-found is propagated without creating; on not-found the
namespace is created through `createUserNamespace`, whose error — an
already-exists included — is propagated. -/
def ensureNamespaceExists (userID : Int) (username : String)
    (getRes createRes : Option ApiErr) : EnsureResult :=
  match getRes with
  | none => { err := none, createAttempted := false, createdLabels := none }
  | some ApiErr.notFound =>
      match createRes with
      | none => { err := none, createAttempted := true,
                  createdLabels := some (deployerNsLabels userID username) }
      | some e => { err := some e, createAttempted := true, createdLabels := none }
  | some e => { err := some e, createAttempted := false, createdLabels := none }

/-- Labels `ensureNamespace` (`TBDback/newhandler.go`) puts on a created
namespace. -/
def handlerNsLabels : List (String × String) :=
  [("app.kubernetes.io/managed-by", "db-saas"),
   ("db-saas/user-namespace", "true")]

/-- `ensureNamespace` (`TBDback/newhandler.go`), over the outcomes of the
get and create calls: it creates after ANY get error (not only not-found),
and propagates any create error. -/
def ensureNamespace (getRes createRes : Option ApiErr) : EnsureResult :=
  match getRes with
  | none => { err := none, createAttempted := false, createdLabels := none }
  | some _ =>
      match createRes with
      | none => { err := none, createAttempted := true,
                  createdLabels := some handlerNsLabels }
      | some e => { err := some e, createAttempted := true, createdLabels := none }

/-- Get outcome of a healthy orchestration API: not-found exactly when the
namespace does not exist. -/
def nsGetRes (existing : Bool) : Option ApiErr :=
  if existing then none else some ApiErr.notFound

/-- Create outcome of a healthy orchestration API: already-exists exactly
when the namespace exists. -/
def nsCreateRes (existing : Bool) : Option ApiErr :=
  if existing then some ApiErr.alreadyExists else none

/-- One sequential `ensureNamespaceExists` call against a healthy API:
the result plus whether the namespace exists afterwards. -/
def runEnsureOnce (userID : Int) (username : String) (existing : Bool) :
    EnsureResult × Bool :=
  let r := ensureNamespaceExists userID username (nsGetRes existing) (nsCreateRes existing)
  (r, existing || r.createAttempted)

/-- A reference to a namespace-scoped object, by resource kind and name. -/
structure ResourceRef where
  kind : String
  name : String
deriving DecidableEq, Repr

/-- Trace of one decommission run: the deletes attempted in order, the
failures downgraded to warnings, and the overall result. -/
structure DecommTrace where
  attempted : List ResourceRef
  warnings : List String
  result : Except String Unit
deriving Repr

/-- A warning line for a tolerated delete failure. -/
def deleteWarning (env : ResourceRef → Option String) (r : ResourceRef) : List String :=
  match env r with
  | some e => ["Warning: failed to delete " ++ r.kind ++ " " ++ r.name ++ ": " ++ e]
  | none => []

/-- `deletePostgreSQLResources` (`TBDback/newhandler.go`): delete, in
order, the pgAdmin IngressRoute, the pgAdmin middleware, the pgAdmin
service, the pgAdmin deployment, the PostgreSQL service and finally the
PostgreSQL deployment; the first five failures are printed as warnings and
swallowed, only the last delete's error is returned.  `env` gives each
delete call's outcome (none = success). -/
def deletePostgreSQLResources (dbName : String) (env : ResourceRef → Option String) :
    DecommTrace :=
  let r1 : ResourceRef := { kind := "ingressroute", name := dbName ++ "-pgadmin-ingress" }
  let r2 : ResourceRef := { kind := "middleware", name := dbName ++ "-pgadmin-stripprefix" }
  let r3 : ResourceRef := { kind := "service", name := dbName ++ "-pgadmin" }
  let r4 : ResourceRef := { kind := "deployment", name := dbName ++ "-pgadmin" }
  let r5 : ResourceRef := { kind := "service", name := dbName }
  let r6 : ResourceRef := { kind := "deployment", name := dbName }
  { attempted := [r1, r2, r3, r4, r5, r6]
    warnings := deleteWarning env r1 ++ deleteWarning env r2 ++ deleteWarning env r3
                  ++ deleteWarning env r4 ++ deleteWarning env r5
    result :=
      match env r6 with
      | some e => .error ("failed to delete PostgreSQL deployment: " ++ e)
      | none => .ok () }

/-- `deleteMySQLResources` (`TBDback/newhandler.go`): same shape with the
phpMyAdmin names; only the final MySQL-deployment delete is load-bearing. -/
def deleteMySQLResources (dbName : String) (env : ResourceRef → Option String) :
    DecommTrace :=
  let r1 : ResourceRef := { kind := "ingressroute", name := dbName ++ "-phpmyadmin-ingress" }
  let r2 : ResourceRef := { kind := "middleware", name := dbName ++ "-phpmyadmin-stripprefix" }
  let r3 : ResourceRef := { kind := "service", name := dbName ++ "-phpmyadmin" }
  let r4 : ResourceRef := { kind := "deployment", name := dbName ++ "-phpmyadmin" }
  let r5 : ResourceRef := { kind := "service", name := dbName }
  let r6 : ResourceRef := { kind := "deployment", name := dbName }
  { attempted := [r1, r2, r3, r4, r5, r6]
    warnings := deleteWarning env r1 ++ deleteWarning env r2 ++ deleteWarning env r3
                  ++ deleteWarning env r4 ++ deleteWarning env r5
    result :=
      match env r6 with
      | some e => .error ("failed to delete MySQL deployment: " ++ e)
      | none => .ok () }

/-- The response record of the gRPC admin service's deploy flows
(`internal/k8s/service.go` `DatabaseResponse`), reduced to the fields the
claims are about. -/
structure DatabaseResponse where
  name : String
  host : String
  port : String
  dbType : String
  status : String
  nsName : String
  adminURL : String
  adminType : String
deriving DecidableEq, Repr

namespace AdminK8s

/-- `createPostgreSQLDeployment` of `internal/k8s/deployments.go`: image
pinned to `postgres:14`, container port 5432. -/
def createPostgreSQLDeployment (req : DatabaseRequest) (ns : String) : DeploymentSpec :=
  { name := req.name
    nsName := ns
    labels := [("app", req.name),
               ("app.kubernetes.io/component", "database"),
               ("app.kubernetes.io/managed-by", "db-saas"),
               ("db-saas/type", "postgresql"),
               ("db-saas/user-id", toString req.userID)]
    image := "postgres:14"
    containerPort := 5432
    env := [("POSTGRES_DB", req.name),
            ("POSTGRES_USER", req.username),
            ("POSTGRES_PASSWORD", req.password)] }

/-- `createMySQLDeployment` of `internal/k8s/deployments.go`: image pinned
to `mysql:8.0`, container port 3306. -/
def createMySQLDeployment (req : DatabaseRequest) (ns : String) : DeploymentSpec :=
  { name := req.name
    nsName := ns
    labels := [("app", req.name),
               ("app.kubernetes.io/component", "database"),
               ("app.kubernetes.io/managed-by", "db-saas"),
               ("db-saas/type", "mysql"),
               ("db-saas/user-id", toString req.userID)]
    image := "mysql:8.0"
    containerPort := 3306
    env := [("MYSQL_ROOT_PASSWORD", req.password),
            ("MYSQL_DATABASE", req.name),
            ("MYSQL_USER", req.username),
            ("MYSQL_PASSWORD", req.password)] }

/-- `createPgAdminDeployment` of `internal/k8s/deployments.go` (no
SCRIPT_NAME: this variant pairs with a StripPrefix route). -/
def createPgAdminDeployment (req : DatabaseRequest) (ns : String) : DeploymentSpec :=
  { name := req.name ++ "-pgadmin"
    nsName := ns
    labels := [("app", req.name ++ "-pgadmin"),
               ("app.kubernetes.io/component", "admin-dashboard"),
               ("app.kubernetes.io/managed-by", "db-saas"),
               ("db-saas/type", "pgadmin"),
               ("db-saas/user-id", toString req.userID)]
    image := "dpage/pgadmin4:latest"
    containerPort := 80
    env := [("PGADMIN_DEFAULT_EMAIL", "admin" ++ req.name ++ "@gmail.com"),
            ("PGADMIN_DEFAULT_PASSWORD", req.password),
            ("PGADMIN_CONFIG_SERVER_MODE", "False"),
            ("PGADMIN_CONFIG_MASTER_PASSWORD_REQUIRED", "False")] }

/-- `createPhpMyAdminDeployment` of `internal/k8s/deployments.go`. -/
def createPhpMyAdminDeployment (req : DatabaseRequest) (ns : String) : DeploymentSpec :=
  { name := req.name ++ "-phpmyadmin"
    nsName := ns
    labels := [("app", req.name ++ "-phpmyadmin"),
               ("app.kubernetes.io/component", "admin-dashboard"),
               ("app.kubernetes.io/managed-by", "db-saas"),
               ("db-saas/type", "phpmyadmin"),
               ("db-saas/user-id", toString req.userID)]
    image := "phpmyadmin:5.2"
    containerPort := 80
    env := [("PMA_HOST", req.name),
            ("PMA_PORT", "3306"),
            ("PMA_USER", req.username),
            ("PMA_PASSWORD", req.password),
            ("MYSQL_ROOT_PASSWORD", req.password)] }

/-- Services of `internal/k8s/deployments.go` (database service). -/
def createDatabaseService (req : DatabaseRequest) (port : Nat) : ServiceSpec :=
  { name := req.name, port := port, targetPort := port }

/-- Admin-console service of `internal/k8s/deployments.go`. -/
def createAdminService (req : DatabaseRequest) (adminType : String) : ServiceSpec :=
  { name := req.name ++ "-" ++ adminType, port := 80, targetPort := 80 }

/-- `createTraefikResources` of `internal/k8s/deployments.go`: dynamic
client guard, then a StripPrefix middleware named
`name-adminType-stripprefix` and an IngressRoute referencing it. -/
def createTraefikResources (dyn : Bool) (req : DatabaseRequest)
    (ns adminType : String) (s : ClusterState) : Except DeployErr ClusterState :=
  if !dyn then .error (.dynUnavailable "Traefik resources")
  else do
    let s ← createMiddleware "middleware" s
      { name := req.name ++ "-" ++ adminType ++ "-stripprefix"
        spec := .stripPrefixMW ["/" ++ ns ++ "/" ++ req.name ++ "-" ++ adminType] }
    createIngressRoute "ingress route" s
      { name := req.name ++ "-" ++ adminType ++ "-ingress"
        matchRule := "Host(\"10.9.21.201\") && PathPrefix(\""
                       ++ ("/" ++ ns ++ "/" ++ req.name ++ "-" ++ adminType) ++ "\")"
        middlewareRefs := [req.name ++ "-" ++ adminType ++ "-stripprefix"]
        serviceName := req.name ++ "-" ++ adminType
        servicePort := 80 }

/-- `deployPostgreSQL` of `internal/k8s/service.go`: the four workload and
service creates propagate errors, but the Traefik step's failure is only
printed as a warning — provisioning still returns a success response. -/
def deployPostgreSQL (dyn : Bool) (req : DatabaseRequest) (ns : String)
    (s : ClusterState) : Except DeployErr (ClusterState × DatabaseResponse) := do
  let s ← createDeployment "PostgreSQL deployment" s (createPostgreSQLDeployment req ns)
  let s ← createService "PostgreSQL service" s (createDatabaseService req 5432)
  let s ← createDeployment "pgAdmin deployment" s (createPgAdminDeployment req ns)
  let s ← createService "pgAdmin service" s (createAdminService req "pgadmin")
  let s :=
    match createTraefikResources dyn req ns "pgadmin" s with
    | .ok s2 => s2
    | .error _ => s
  .ok (s, { name := req.name
            host := req.name ++ "." ++ ns ++ ".svc.cluster.local"
            port := "5432"
            dbType := req.dbType
            status := "creating"
            nsName := ns
            adminURL := "http://10.9.21.201/" ++ ns ++ "/" ++ req.name ++ "-pgadmin"
            adminType := "pgAdmin" })

/-- `deployMySQL` of `internal/k8s/service.go`: same shape; the Traefik
step's failure is downgraded to a warning. -/
def deployMySQL (dyn : Bool) (req : DatabaseRequest) (ns : String)
    (s : ClusterState) : Except DeployErr (ClusterState × DatabaseResponse) := do
  let s ← createDeployment "MySQL deployment" s (createMySQLDeployment req ns)
  let s ← createService "MySQL service" s (createDatabaseService req 3306)
  let s ← createDeployment "phpMyAdmin deployment" s (createPhpMyAdminDeployment req ns)
  let s ← createService "phpMyAdmin service" s (createAdminService req "phpmyadmin")
  let s :=
    match createTraefikResources dyn req ns "phpmyadmin" s with
    | .ok s2 => s2
    | .error _ => s
  .ok (s, { name := req.name
            host := req.name ++ "." ++ ns ++ ".svc.cluster.local"
            port := "3306"
            dbType := req.dbType
            status := "creating"
            nsName := ns
            adminURL := "http://10.9.21.201/" ++ ns ++ "/" ++ req.name ++ "-phpmyadmin"
            adminType := "phpMyAdmin" })

/-- `CreateDatabase` of `internal/k8s/service.go` after the namespace
ensure: `mysql` goes to the MySQL flow, every other type string to the
PostgreSQL flow. -/
def createDatabaseDispatch (dyn : Bool) (req : DatabaseRequest) (ns : String)
    (s : ClusterState) : Except DeployErr (ClusterState × DatabaseResponse) :=
  if req.dbType == "mysql" then deployMySQL dyn req ns s
  else deployPostgreSQL dyn req ns s

end AdminK8s

theorem append_ne_left (s t : String) (h : 0 < t.length) : s ++ t ≠ s := by
  intro hEq
  have hl := congrArg String.length hEq
  rw [String.length_append] at hl
  omega

@[simp] theorem name_ne_pgadmin (s : String) : ¬(s = s ++ "-pgadmin") := by
  intro hEq
  exact append_ne_left s "-pgadmin" (by decide) hEq.symm

@[simp] theorem name_ne_phpmyadmin (s : String) : ¬(s = s ++ "-phpmyadmin") := by
  intro hEq
  exact append_ne_left s "-phpmyadmin" (by decide) hEq.symm

@[simp] theorem pgadmin_append_ne_name (s : String) : ¬(s ++ "-pgadmin" = s) :=
  append_ne_left s "-pgadmin" (by decide)

@[simp] theorem phpmyadmin_append_ne_name (s : String) : ¬(s ++ "-phpmyadmin" = s) :=
  append_ne_left s "-phpmyadmin" (by decide)

@[simp] theorem name_ne_dash_append (s t : String) : ¬(s = s ++ "-" ++ t) := by
  intro hEq
  have hl := congrArg String.length hEq
  rw [String.length_append, String.length_append] at hl
  have hdash : ("-" : String).length = 1 := by decide
  omega

theorem string_append_right_inj (s a b : String) (h : s ++ a = s ++ b) : a = b := by
  have hd : s.data ++ a.data = s.data ++ b.data := congrArg String.data h
  have hab := List.append_cancel_left hd
  cases a
  cases b
  exact congrArg String.mk (by simpa using hab)

@[simp] theorem string_append_right_cancel_iff (s a b : String) :
    (s ++ a = s ++ b) ↔ a = b :=
  ⟨string_append_right_inj s a b, fun h => by rw [h]⟩

/-- C1: for every provisioning request the derived path prefix
`/namespace/dbname-adminSuffix` is one and the same string at its three
use sites: the routing rule's PathPrefix match predicate, the admin URL
returned by the provisioning endpoint, and — for the postgresql/pgAdmin
admin type — the SCRIPT_NAME mount-path environment variable of the
pgAdmin deployment (the provisioning endpoint appends the literal
`/login?next=` after the prefix for pgAdmin, and nothing for phpMyAdmin). -/
theorem claim_C1_path_consistency :
    ∀ (req : DatabaseRequest) (ns : String),
      (TBDback.pgAdminIngressRouteSpec req ns 80).matchRule
          = "Host(\"10.9.21.201\") && PathPrefix(\""
              ++ derivePathPrefix ns req.name "pgadmin" ++ "\")"
      ∧ envLookup (TBDback.createPgAdminDeployment req ns).env "SCRIPT_NAME"
          = some (derivePathPrefix ns req.name "pgadmin")
      ∧ provisionAdminURL "postgresql" ns req.name
          = "http://10.9.21.201" ++ derivePathPrefix ns req.name "pgadmin"
              ++ "/login?next="
      ∧ (TBDback.traefikIngressRouteSpec req ns "phpmyadmin" 80).matchRule
          = "Host(\"10.9.21.201\") && PathPrefix(\""
              ++ derivePathPrefix ns req.name "phpmyadmin" ++ "\")"
      ∧ provisionAdminURL "mysql" ns req.name
          = "http://10.9.21.201" ++ derivePathPrefix ns req.name "phpmyadmin" := by
  intro req ns
  have h1 : ("http://10.9.21.201/" : String) = "http://10.9.21.201" ++ "/" := by decide
  refine ⟨?_, ?_, ?_, ?_, ?_⟩
  · simp [TBDback.pgAdminIngressRouteSpec, derivePathPrefix, String.append_assoc]
  · simp [TBDback.createPgAdminDeployment, envLookup, List.find?,
      derivePathPrefix, String.append_assoc]
  · simp [provisionAdminURL, derivePathPrefix, String.append_assoc]
    rw [h1, String.append_assoc]
  · simp [TBDback.traefikIngressRouteSpec, derivePathPrefix, String.append_assoc]
  · simp [provisionAdminURL, derivePathPrefix, String.append_assoc]
    rw [h1, String.append_assoc]

/-- C2: the postgresql provisioning flow ends with exactly one middleware
object — header injection — and its routing rule references only that
middleware; the mysql flow ends with the header-injection middleware and
exactly one replacePathRegex middleware whose regex is
`^{prefix}/(.*)` with replacement `/$1`, and its routing rule references
headers first, then the path rewrite. -/
theorem claim_C2_routing_middleware_policy :
    ∀ (req : DatabaseRequest) (ns : String),
      (TBDback.deployPostgreSQL true req ns emptyCluster).map
          (fun s => s.middlewares.map (fun m => m.spec))
        = .ok [MiddlewareSpec.headers
                 [("X-User-ID", toString req.userID),
                  ("X-Username", req.username),
                  ("X-Namespace", ns)]]
      ∧ (TBDback.deployPostgreSQL true req ns emptyCluster).map
            (fun s => s.ingressRoutes.map (fun r => r.middlewareRefs))
          = .ok [[req.name ++ "-pgadmin-headers"]]
      ∧ (TBDback.deployMySQL true req ns emptyCluster).map
            (fun s => s.middlewares.map (fun m => m.spec))
          = .ok [MiddlewareSpec.headers
                   [("X-User-ID", toString req.userID),
                    ("X-Username", req.username),
                    ("X-Namespace", ns)],
                 MiddlewareSpec.replacePathRegex
                   ("^" ++ derivePathPrefix ns req.name "phpmyadmin" ++ "/(.*)")
                   "/$1"]
      ∧ (TBDback.deployMySQL true req ns emptyCluster).map
            (fun s => s.ingressRoutes.map (fun r => r.middlewareRefs))
          = .ok [[req.name ++ "-phpmyadmin-headers",
                  req.name ++ "-phpmyadmin-replacepath"]] := by
  intro req ns
  refine ⟨?_, ?_, ?_, ?_⟩ <;>
  simp [TBDback.deployPostgreSQL, TBDback.deployMySQL, createDeployment,
    createService, TBDback.createPgAdminMiddleware, createMiddleware,
    TBDback.createPgAdminIngressRoute, createIngressRoute,
    TBDback.createTraefikMiddleware, TBDback.createTraefikIngressRoute,
    TBDback.createPostgreSQLDeployment, TBDback.createPostgreSQLService,
    TBDback.createPgAdminDeployment, TBDback.createPgAdminService,
    TBDback.createMySQLDeployment, TBDback.createMySQLService,
    TBDback.createPhpMyAdminDeployment, TBDback.createPhpMyAdminService,
    TBDback.pgAdminHeadersMiddleware, TBDback.pgAdminIngressRouteSpec,
    TBDback.traefikIngressRouteSpec, derivePathPrefix,
    emptyCluster, bind, Except.bind, Except.map, String.append_assoc]

/-- C3: the admin URL the provisioning endpoint returns and the admin URL
the lister reconstructs for the same (namespace, name, type) are NOT
byte-identical — the provisioner uses `/namespace/dbname-suffix` (pgAdmin
with a `/login?next=` tail) while the lister rebuilds
`/namespace/admin/adminType/dbname`, a pattern no created routing rule
matches. -/
theorem claim_C3_lister_provisioner_url_mismatch :
    provisionAdminURL "postgresql" "7alice" "orders-db"
        = "http://10.9.21.201/7alice/orders-db-pgadmin/login?next="
    ∧ listerAdminURL "postgresql" "7alice" "orders-db"
        = "http://10.9.21.201/7alice/admin/pgadmin/orders-db"
    ∧ provisionAdminURL "postgresql" "7alice" "orders-db"
        ≠ listerAdminURL "postgresql" "7alice" "orders-db"
    ∧ provisionAdminURL "mysql" "3bob" "catalog"
        = "http://10.9.21.201/3bob/catalog-phpmyadmin"
    ∧ listerAdminURL "mysql" "3bob" "catalog"
        = "http://10.9.21.201/3bob/admin/phpmyadmin/catalog"
    ∧ provisionAdminURL "mysql" "3bob" "catalog"
        ≠ listerAdminURL "mysql" "3bob" "catalog" := by decide

/-- C4 counterexample: with the routing (dynamic) client not initialized,
the gRPC admin service's PostgreSQL provisioning still returns a success
response — status `creating`, no routing rule created — instead of
failing closed. -/
theorem claim_C4_silent_routing_skip_cex :
    (AdminK8s.deployPostgreSQL false
        { name := "orders-db", username := "alice", password := "pw",
          dbType := "postgresql", userID := 7, userName := "alice" }
        "7alice" emptyCluster).isOk = true
    ∧ (AdminK8s.deployPostgreSQL false
        { name := "orders-db", username := "alice", password := "pw",
          dbType := "postgresql", userID := 7, userName := "alice" }
        "7alice" emptyCluster).map (fun p => p.1.ingressRoutes) = .ok []
    ∧ (AdminK8s.deployPostgreSQL false
        { name := "orders-db", username := "alice", password := "pw",
          dbType := "postgresql", userID := 7, userName := "alice" }
        "7alice" emptyCluster).map (fun p => p.2.status) = .ok "creating" := by
  exact ⟨rfl, rfl, rfl⟩

/-- C4 amended: the HTTP backend's deploy flows fail closed when the
dynamic client is not initialized, but the gRPC admin service's deploy
flows downgrade the routing-creation failure to a warning and report
overall success with no routing rule and no middleware created. -/
theorem claim_C4_routing_unavailable :
    ∀ (req : DatabaseRequest) (ns : String),
      TBDback.deployPostgreSQL false req ns emptyCluster
          = .error (.dynUnavailable "pgAdmin middleware")
      ∧ TBDback.deployMySQL false req ns emptyCluster
          = .error (.dynUnavailable "middleware")
      ∧ (AdminK8s.deployPostgreSQL false req ns emptyCluster).isOk = true
      ∧ (AdminK8s.deployPostgreSQL false req ns emptyCluster).map
            (fun p => p.1.ingressRoutes) = .ok []
      ∧ (AdminK8s.deployPostgreSQL false req ns emptyCluster).map
            (fun p => p.1.middlewares) = .ok []
      ∧ (AdminK8s.deployMySQL false req ns emptyCluster).isOk = true
      ∧ (AdminK8s.deployMySQL false req ns emptyCluster).map
            (fun p => p.1.ingressRoutes) = .ok [] := by
  intro req ns
  refine ⟨?_, ?_, ?_, ?_, ?_, ?_, ?_⟩ <;>
  simp [TBDback.deployPostgreSQL, TBDback.deployMySQL,
    AdminK8s.deployPostgreSQL, AdminK8s.deployMySQL,
    AdminK8s.createTraefikResources,
    AdminK8s.createPostgreSQLDeployment, AdminK8s.createMySQLDeployment,
    AdminK8s.createPgAdminDeployment, AdminK8s.createPhpMyAdminDeployment,
    AdminK8s.createDatabaseService, AdminK8s.createAdminService,
    createDeployment, createService, createMiddleware, createIngressRoute,
    TBDback.createPgAdminMiddleware, TBDback.createTraefikMiddleware,
    TBDback.createPostgreSQLDeployment, TBDback.createPostgreSQLService,
    TBDback.createPgAdminDeployment, TBDback.createPgAdminService,
    TBDback.createMySQLDeployment, TBDback.createMySQLService,
    TBDback.createPhpMyAdminDeployment, TBDback.createPhpMyAdminService,
    emptyCluster, bind, Except.bind, Except.map, Except.isOk, Except.toBool]

/-- C5 counterexample: `ensureNamespaceExists` propagates an
already-exists error from the create step as a failure (it is not treated
as success), and `ensureNamespace` of the handler attempts a create after
a get error that is not not-found (instead of propagating it without
creating). -/
theorem claim_C5_ensure_cex :
    (ensureNamespaceExists 7 "alice" (some ApiErr.notFound)
        (some ApiErr.alreadyExists)).err = some ApiErr.alreadyExists
    ∧ (ensureNamespace (some (ApiErr.other "connection refused"))
        none).createAttempted = true := by
  decide

/-- C5 amended: `ensureNamespaceExists` gets, creates with its fixed label
set on not-found, and propagates any other get error without creating;
but an already-exists (or any) error from the create is propagated as an
error rather than treated as success, and the handler's `ensureNamespace`
attempts creation after any get error.  Two sequential calls against a
healthy API yield no error and no second create. -/
theorem claim_C5_ensure_behavior :
    ∀ (userID : Int) (username msg : String) (c : Option ApiErr) (e : ApiErr)
      (b : Bool),
      (ensureNamespaceExists userID username none c).err = none
      ∧ (ensureNamespaceExists userID username none c).createAttempted = false
      ∧ (ensureNamespaceExists userID username (some (ApiErr.other msg)) c).err
          = some (ApiErr.other msg)
      ∧ (ensureNamespaceExists userID username (some (ApiErr.other msg))
            c).createAttempted = false
      ∧ (ensureNamespaceExists userID username (some ApiErr.notFound)
            (some e)).err = some e
      ∧ (ensureNamespaceExists userID username (some ApiErr.notFound) none).err
          = none
      ∧ (ensureNamespaceExists userID username (some ApiErr.notFound)
            none).createdLabels = some (deployerNsLabels userID username)
      ∧ (ensureNamespace (some (ApiErr.other msg)) c).createAttempted = true
      ∧ (runEnsureOnce userID username
            ((runEnsureOnce userID username b).2)).1.err = none
      ∧ (runEnsureOnce userID username
            ((runEnsureOnce userID username b).2)).1.createAttempted = false
      ∧ (runEnsureOnce userID username
            ((runEnsureOnce userID username b).2)).2
          = (runEnsureOnce userID username b).2 := by
  intro userID username msg c e b
  cases b <;> cases c <;>
  simp [ensureNamespaceExists, ensureNamespace, runEnsureOnce,
    nsGetRes, nsCreateRes]

/-- C6: both decommission flows attempt, in order, the routing rule, the
middleware, the admin service, the admin deployment, the database service
and the database deployment; the overall result is a success exactly when
the final database-deployment delete succeeds, whatever happens to the
earlier five steps. -/
theorem claim_C6_decommission_tolerance :
    ∀ (dbName : String) (env : ResourceRef → Option String),
      (deletePostgreSQLResources dbName env).attempted
          = [⟨"ingressroute", dbName ++ "-pgadmin-ingress"⟩,
             ⟨"middleware", dbName ++ "-pgadmin-stripprefix"⟩,
             ⟨"service", dbName ++ "-pgadmin"⟩,
             ⟨"deployment", dbName ++ "-pgadmin"⟩,
             ⟨"service", dbName⟩,
             ⟨"deployment", dbName⟩]
      ∧ ((deletePostgreSQLResources dbName env).result = .ok ()
          ↔ env ⟨"deployment", dbName⟩ = none)
      ∧ (deleteMySQLResources dbName env).attempted
          = [⟨"ingressroute", dbName ++ "-phpmyadmin-ingress"⟩,
             ⟨"middleware", dbName ++ "-phpmyadmin-stripprefix"⟩,
             ⟨"service", dbName ++ "-phpmyadmin"⟩,
             ⟨"deployment", dbName ++ "-phpmyadmin"⟩,
             ⟨"service", dbName⟩,
             ⟨"deployment", dbName⟩]
      ∧ ((deleteMySQLResources dbName env).result = .ok ()
          ↔ env ⟨"deployment", dbName⟩ = none) := by
  intro dbName env
  refine ⟨rfl, ?_, rfl, ?_⟩ <;>
  · cases h : env ⟨"deployment", dbName⟩ <;>
      simp [deletePostgreSQLResources, deleteMySQLResources, h]

/-- C7: provisioning the same (namespace, database name) twice through
either deploy flow succeeds the first time from a clean state and fails
with a create-conflict on the database workload the second time; more
generally, a pre-existing database workload of the same name makes the
flow fail with a conflict instead of silently adopting it. -/
theorem claim_C7_create_conflict :
    ∀ (req : DatabaseRequest) (ns : String) (s : ClusterState),
      (TBDback.deployPostgreSQL true req ns emptyCluster).isOk = true
      ∧ (TBDback.deployPostgreSQL true req ns emptyCluster >>= fun s₁ =>
          TBDback.deployPostgreSQL true req ns s₁)
          = .error (.conflict "PostgreSQL deployment")
      ∧ (TBDback.deployMySQL true req ns emptyCluster).isOk = true
      ∧ (TBDback.deployMySQL true req ns emptyCluster >>= fun s₁ =>
          TBDback.deployMySQL true req ns s₁)
          = .error (.conflict "MySQL deployment")
      ∧ TBDback.deployPostgreSQL true req ns
          { s with deployments :=
              TBDback.createPostgreSQLDeployment req ns :: s.deployments }
          = .error (.conflict "PostgreSQL deployment")
      ∧ TBDback.deployMySQL true req ns
          { s with deployments :=
              TBDback.createMySQLDeployment req ns :: s.deployments }
          = .error (.conflict "MySQL deployment")
      ∧ TBDback.deployPostgreSQL true req ns
          { emptyCluster with services := [TBDback.createPostgreSQLService req] }
          = .error (.conflict "PostgreSQL service")
      ∧ TBDback.deployPostgreSQL true req ns
          { emptyCluster with deployments := [TBDback.createPgAdminDeployment req ns] }
          = .error (.conflict "pgAdmin deployment")
      ∧ TBDback.deployPostgreSQL true req ns
          { emptyCluster with services := [TBDback.createPgAdminService req] }
          = .error (.conflict "pgAdmin service")
      ∧ TBDback.deployPostgreSQL true req ns
          { emptyCluster with middlewares := [TBDback.pgAdminHeadersMiddleware req ns] }
          = .error (.conflict "headers middleware")
      ∧ TBDback.deployPostgreSQL true req ns
          { emptyCluster with ingressRoutes := [TBDback.pgAdminIngressRouteSpec req ns 80] }
          = .error (.conflict "IngressRoute") := by
  intro req ns s
  refine ⟨?_, ?_, ?_, ?_, ?_, ?_, ?_, ?_, ?_, ?_, ?_⟩ <;>
  simp [TBDback.deployPostgreSQL, TBDback.deployMySQL, createDeployment,
    createService, TBDback.createPgAdminMiddleware, createMiddleware,
    TBDback.createPgAdminIngressRoute, createIngressRoute,
    TBDback.createTraefikMiddleware, TBDback.createTraefikIngressRoute,
    TBDback.createPostgreSQLDeployment, TBDback.createPostgreSQLService,
    TBDback.createPgAdminDeployment, TBDback.createPgAdminService,
    TBDback.createMySQLDeployment, TBDback.createMySQLService,
    TBDback.createPhpMyAdminDeployment, TBDback.createPhpMyAdminService,
    TBDback.pgAdminHeadersMiddleware, TBDback.pgAdminIngressRouteSpec,
    TBDback.traefikIngressRouteSpec,
    emptyCluster, bind, Except.bind, Except.map, Except.isOk, Except.toBool]

/-- C8: GetUserNamespace is the character-level 63-truncation of the
decimal tenant id concatenated with the handle: it always equals the
first 63 characters of that concatenation, its result is at most 63
characters, short concatenations pass through untruncated, and two inputs
whose concatenations agree on the first 63 characters collide. -/
theorem claim_C8_namespace_derivation :
    ∀ (userID : Int) (username : String),
      GetUserNamespace userID username
          = String.mk ((toString userID ++ username).data.take 63)
      ∧ (GetUserNamespace userID username).length ≤ 63
      ∧ ((toString userID ++ username).length ≤ 63 →
          GetUserNamespace userID username = toString userID ++ username)
      ∧ ∀ (userID2 : Int) (username2 : String),
          (toString userID ++ username).data.take 63
              = (toString userID2 ++ username2).data.take 63 →
          GetUserNamespace userID username = GetUserNamespace userID2 username2 := by
  intro userID username
  have hchar : ∀ (i : Int) (u : String),
      GetUserNamespace i u = String.mk ((toString i ++ u).data.take 63) := by
    intro i u
    have hdef : GetUserNamespace i u
        = if (toString i ++ u).length > 63
          then String.mk ((toString i ++ u).data.take 63)
          else toString i ++ u := rfl
    rw [hdef]
    by_cases h : (toString i ++ u).length > 63
    · rw [if_pos h]
    · rw [if_neg h]
      have hlen : (toString i ++ u).length = (toString i ++ u).data.length := rfl
      have hle : (toString i ++ u).data.length ≤ 63 := by omega
      rw [List.take_of_length_le hle]
  refine ⟨hchar userID username, ?_, ?_, ?_⟩
  · rw [hchar userID username]
    show ((toString userID ++ username).data.take 63).length ≤ 63
    simp [List.length_take]
  · intro h
    rw [hchar userID username]
    have hlen : (toString userID ++ username).length
        = (toString userID ++ username).data.length := rfl
    have hle : (toString userID ++ username).data.length ≤ 63 := by omega
    rw [List.take_of_length_le hle]
  · intro userID2 username2 h
    rw [hchar userID username, hchar userID2 username2]
    exact congrArg String.mk h

/-- C8 witness: a short input passes through untruncated and within the
63-character bound, and two 64-character concatenations sharing their
first 63 characters collide. -/
theorem claim_C8_namespace_derivation_witness :
    (GetUserNamespace 7 "alice").length ≤ 63
    ∧ GetUserNamespace 7 "alice" = toString (7 : Int) ++ "alice"
    ∧ GetUserNamespace 1 "aaaaaaaaaaaaaaaaaaaaaaaaaaaaaaaaaaaaaaaaaaaaaaaaaaaaaaaaaaaaaaa"
        = GetUserNamespace 1 "aaaaaaaaaaaaaaaaaaaaaaaaaaaaaaaaaaaaaaaaaaaaaaaaaaaaaaaaaaaaaab" :=
  ⟨(claim_C8_namespace_derivation 7 "alice").2.1,
   (claim_C8_namespace_derivation 7 "alice").2.2.1 (by decide),
   (claim_C8_namespace_derivation 1 "aaaaaaaaaaaaaaaaaaaaaaaaaaaaaaaaaaaaaaaaaaaaaaaaaaaaaaaaaaaaaaa").2.2.2
     1 "aaaaaaaaaaaaaaaaaaaaaaaaaaaaaaaaaaaaaaaaaaaaaaaaaaaaaaaaaaaaaab" (by decide)⟩

/-- C9 counterexample: the database workload builders of
TBDback/newhandler.go (current revision) use the floating images
mysql:latest and postgres:latest, not the pinned mysql:8.0 and
postgres:14 of the policy table. -/
theorem claim_C9_image_pin_cex :
    (TBDback.createPostgreSQLDeployment
        { name := "orders-db", username := "alice", password := "pw",
          dbType := "postgresql", userID := 7, userName := "alice" }
        "7alice").image = "postgres:latest"
    ∧ (TBDback.createPostgreSQLDeployment
        { name := "orders-db", username := "alice", password := "pw",
          dbType := "postgresql", userID := 7, userName := "alice" }
        "7alice").image ≠ "postgres:14"
    ∧ (TBDback.createMySQLDeployment
        { name := "catalog", username := "bob", password := "pw",
          dbType := "mysql", userID := 3, userName := "bob" }
        "3bob").image = "mysql:latest"
    ∧ (TBDback.createMySQLDeployment
        { name := "catalog", username := "bob", password := "pw",
          dbType := "mysql", userID := 3, userName := "bob" }
        "3bob").image ≠ "mysql:8.0" := by
  decide

/-- C9 amended: the ports (5432/3306, admin consoles on 80) and admin
images (dpage/pgadmin4:latest, phpmyadmin:5.2) match the policy table in
both builder families; the database images are pinned to postgres:14 and
mysql:8.0 only in the admin-service builders, while the cited
TBDback/newhandler.go builders use postgres:latest and mysql:latest. -/
theorem claim_C9_policy_table :
    ∀ (req : DatabaseRequest) (ns : String),
      (TBDback.createPostgreSQLDeployment req ns).containerPort = 5432
      ∧ (TBDback.createMySQLDeployment req ns).containerPort = 3306
      ∧ (TBDback.createPostgreSQLDeployment req ns).image = "postgres:latest"
      ∧ (TBDback.createMySQLDeployment req ns).image = "mysql:latest"
      ∧ (TBDback.createPgAdminDeployment req ns).image = "dpage/pgadmin4:latest"
      ∧ (TBDback.createPgAdminDeployment req ns).containerPort = 80
      ∧ (TBDback.createPhpMyAdminDeployment req ns).image = "phpmyadmin:5.2"
      ∧ (TBDback.createPhpMyAdminDeployment req ns).containerPort = 80
      ∧ (AdminK8s.createPostgreSQLDeployment req ns).image = "postgres:14"
      ∧ (AdminK8s.createPostgreSQLDeployment req ns).containerPort = 5432
      ∧ (AdminK8s.createMySQLDeployment req ns).image = "mysql:8.0"
      ∧ (AdminK8s.createMySQLDeployment req ns).containerPort = 3306 :=
  fun _ _ => ⟨rfl, rfl, rfl, rfl, rfl, rfl, rfl, rfl, rfl, rfl, rfl, rfl⟩

/-- C10: a request whose type is not "mysql" is not rejected: both the
HTTP backend dispatch and the gRPC admin-service dispatch send every
non-mysql type string down the PostgreSQL path, so the request is
provisioned as a PostgreSQL database (postgres image) with a pgAdmin
console. -/
theorem claim_C10_unknown_type_postgres_path :
    ∀ (req : DatabaseRequest) (ns : String), req.dbType ≠ "mysql" →
      deployDatabaseToUserNamespace true req emptyCluster
          = TBDback.deployPostgreSQL true req
              (GetUserNamespace req.userID req.userName)
              { emptyCluster with
                  namespaces := [GetUserNamespace req.userID req.userName] }
      ∧ (deployDatabaseToUserNamespace true req emptyCluster).map
            (fun s => s.deployments.map (fun d => d.image))
          = .ok ["postgres:latest", "dpage/pgadmin4:latest"]
      ∧ (AdminK8s.createDatabaseDispatch true req ns emptyCluster).map
            (fun p => p.2.adminType) = .ok "pgAdmin" := by
  intro req ns h
  have hbeq : (req.dbType == "mysql") = false := beq_eq_false_iff_ne.mpr h
  refine ⟨?_, ?_, ?_⟩
  · simp [deployDatabaseToUserNamespace, ensureNamespaceStep, emptyCluster, hbeq]
  · simp [deployDatabaseToUserNamespace, ensureNamespaceStep, hbeq,
      TBDback.deployPostgreSQL, createDeployment, createService,
      TBDback.createPgAdminMiddleware, createMiddleware,
      TBDback.createPgAdminIngressRoute, createIngressRoute,
      TBDback.createPostgreSQLDeployment, TBDback.createPostgreSQLService,
      TBDback.createPgAdminDeployment, TBDback.createPgAdminService,
      TBDback.pgAdminHeadersMiddleware, TBDback.pgAdminIngressRouteSpec,
      emptyCluster, bind, Except.bind, Except.map]
  · simp [AdminK8s.createDatabaseDispatch, hbeq,
      AdminK8s.deployPostgreSQL, AdminK8s.createTraefikResources,
      AdminK8s.createPostgreSQLDeployment, AdminK8s.createPgAdminDeployment,
      AdminK8s.createDatabaseService, AdminK8s.createAdminService,
      createDeployment, createService, createMiddleware, createIngressRoute,
      emptyCluster, bind, Except.bind, Except.map]

/-- C10 witness: a request of type "mongodb" is provisioned down the
PostgreSQL/pgAdmin path by both dispatchers. -/
theorem claim_C10_unknown_type_postgres_path_witness :
    (deployDatabaseToUserNamespace true
        { name := "db1", username := "u", password := "p",
          dbType := "mongodb", userID := 3, userName := "bob" }
        emptyCluster).map (fun s => s.deployments.map (fun d => d.image))
        = .ok ["postgres:latest", "dpage/pgadmin4:latest"]
    ∧ (AdminK8s.createDatabaseDispatch true
        { name := "db1", username := "u", password := "p",
          dbType := "mongodb", userID := 3, userName := "bob" }
        "3bob" emptyCluster).map (fun p => p.2.adminType) = .ok "pgAdmin" :=
  ⟨(claim_C10_unknown_type_postgres_path
      { name := "db1", username := "u", password := "p",
        dbType := "mongodb", userID := 3, userName := "bob" }
      "3bob" (by decide)).2.1,
   (claim_C10_unknown_type_postgres_path
      { name := "db1", username := "u", password := "p",
        dbType := "mongodb", userID := 3, userName := "bob" }
      "3bob" (by decide)).2.2⟩
